import Mathlib

/-!
Verification development for the `blitz` backend.

The definitions below are a shallow embedding, translated from the Python
sources `backend/sql_executor_service.py` and `backend/services.py`:

* pure string manipulation (`str.strip`, `str.upper`, `str.split`,
  `re.search` over the concrete patterns the service uses) is implemented
  directly over `List Char`;
* Python floats are modelled as `ℚ`, with `round(x, k)` modelled through
  `round : ℚ → ℤ`;
* the database, the LLM provider and the tool implementations are external
  effects; they are modelled as oracle parameters, and the services'
  observable behaviour (which validation branch fires, which SQL text is
  handed to the database, which result record is returned) is embedded as
  pure functions of the inputs and those oracles;
* Python exceptions are modelled with `Except String` (carrying `str(e)`),
  and `raise`/`try` control flow is translated branch by branch.
-/

/-! ## String primitives (Python semantics) -/

/-- Python's `\s` class: the six ASCII whitespace characters
(`str.strip` and `re` use the same set on ASCII input). -/
def isPySpace (c : Char) : Bool :=
  c == ' ' || c == '\t' || c == '\n' || c == '\r' || c == '\x0b' || c == '\x0c'

/-- Python's `\w` class, restricted to ASCII (all inputs here are ASCII SQL
or marker text): letters, digits and underscore. -/
def isPyWord (c : Char) : Bool :=
  c.isAlpha || c.isDigit || c == '_'

/-- Drop leading characters satisfying `p`. -/
def dropWhileB (p : Char → Bool) : List Char → List Char
  | [] => []
  | c :: l => if p c then dropWhileB p l else c :: l

/-- `str.strip()` on the character list: drop Python whitespace at both ends. -/
def stripChars (l : List Char) : List Char :=
  (dropWhileB isPySpace ((dropWhileB isPySpace l.reverse).reverse))

/-- Python `str.strip()`. -/
def pyStrip (s : String) : String := ⟨stripChars s.data⟩

/-- Python `str.upper()` (ASCII). -/
def pyUpper (s : String) : String := ⟨s.data.map Char.toUpper⟩

/-- `str.split()` with no separator: split on runs of whitespace,
discarding empty fields. -/
def wordsChars : List Char → List (List Char)
  | [] => []
  | c :: l =>
    if isPySpace c then wordsChars l
    else
      match wordsChars l with
      | [] => [[c]]
      | w :: ws =>
        match l with
        | [] => [[c]]
        | d :: _ => if isPySpace d then [c] :: w :: ws else (c :: w) :: ws

/-- First word of `s.split()`, or `""` when there is none (matches
`clean.split()[0] if clean.split() else ''`). -/
def firstWord (s : String) : String :=
  match wordsChars s.data with
  | [] => ""
  | w :: _ => ⟨w⟩

/-- Prefix test on character lists. -/
def isPrefixChars : List Char → List Char → Bool
  | [], _ => true
  | _ :: _, [] => false
  | a :: as, b :: bs => a == b && isPrefixChars as bs

/-- Python `needle in haystack` (substring containment). -/
def hasSubstrChars (needle : List Char) : List Char → Bool
  | [] => isPrefixChars needle []
  | c :: l => isPrefixChars needle (c :: l) || hasSubstrChars needle l

def hasSubstr (s needle : String) : Bool := hasSubstrChars needle.data s.data

/-- Python `s.startswith(p)`. -/
def pyStartsWith (s p : String) : Bool := isPrefixChars p.data s.data

/-- Python `str(n)` for an `int`. -/
def pyIntStr (n : Int) : String :=
  if n < 0 then "-" ++ Nat.repr n.natAbs else Nat.repr n.natAbs

/-- Python `round(x, k)` on a float, modelled over `ℚ`.  (CPython rounds
half-to-even on binary floats; no claim below depends on a half-way case,
so the standard `round` on `ℚ` is used.) -/
def pyRound (x : ℚ) (k : ℕ) : ℚ :=
  (round (x * (10 : ℚ) ^ k) : ℤ) / (10 : ℚ) ^ k

/-! ## A tiny regex interpreter

`SQLExecutorService.injection_patterns` and the service's other `re` uses
only need literals, the classes `\s`, `\w`, `.`, the quantifiers `*`/`+`
(a `+` is one mandatory class character followed by a star) and `$`.
`matchItems` implements exact backtracking over that fragment;
`searchItems` is `re.search` (match at any position). -/

inductive CharCls where
  | ws    -- `\s`
  | word  -- `\w`
  | dot   -- `.` (anything except a newline; no DOTALL)
deriving DecidableEq

def clsMatch : CharCls → Char → Bool
  | .ws, c => isPySpace c
  | .word, c => isPyWord c
  | .dot, c => c != '\n'

inductive RItem where
  | lit (c : Char)
  | one (cls : CharCls)
  | star (cls : CharCls)
  | eos  -- `$` without MULTILINE: end of input, or just before a final newline
deriving DecidableEq

/-- `$` semantics on the remaining input. -/
def atEos : List Char → Bool
  | [] => true
  | ['\n'] => true
  | _ => false

/-- Backtracking for `cls*`: hand every split point to the continuation,
consuming zero or more `cls` characters first. -/
def starScan (k : List Char → Bool) (cls : CharCls) : List Char → Bool
  | [] => k []
  | d :: l => k (d :: l) || (clsMatch cls d && starScan k cls l)

def matchItems : List RItem → List Char → Bool
  | [], _ => true
  | .lit _ :: _, [] => false
  | .lit c :: its, d :: l => c == d && matchItems its l
  | .one _ :: _, [] => false
  | .one cls :: its, d :: l => clsMatch cls d && matchItems its l
  | .star cls :: its, l => starScan (fun l' => matchItems its l') cls l
  | .eos :: its, l => atEos l && matchItems its l

/-- `re.search`: try a match at every start position. -/
def searchItems (pat : List RItem) : List Char → Bool
  | [] => matchItems pat []
  | c :: l => matchItems pat (c :: l) || searchItems pat l

def litsOf (s : String) : List RItem := s.data.map RItem.lit

/-- `\s+` as items. -/
def wsPlus : List RItem := [.one .ws, .star .ws]

/-- `\w+` as items. -/
def wordPlus : List RItem := [.one .word, .star .word]

/-! ## SQL safety gateway (`backend/sql_executor_service.py`)

The matching is performed on text that has already been upper-cased by the
caller (both `validate_query` and `analyze_query` upper-case first and
`re.search` is invoked with `re.IGNORECASE`), so upper-case literals below
realise the case-insensitive search. -/

/-- `self.injection_patterns`, each with its Python source text (the text
appears verbatim in `validate_query`'s refusal message). -/
def injection_patterns : List (String × List RItem) :=
  [ (";\\s*DROP\\s+", [.lit ';', .star .ws] ++ litsOf ("DROP") ++ wsPlus),
    (";\\s*DELETE\\s+FROM\\s+",
      [.lit ';', .star .ws] ++ litsOf ("DELETE") ++ wsPlus ++ litsOf ("FROM") ++ wsPlus),
    (";\\s*UPDATE\\s+.*\\s+SET\\s+",
      [.lit ';', .star .ws] ++ litsOf ("UPDATE") ++ wsPlus ++ [.star .dot] ++
        wsPlus ++ litsOf ("SET") ++ wsPlus),
    ("--\\s*$", litsOf ("--") ++ [.star .ws, .eos]),
    ("/\\*.*\\*/", litsOf ("/*") ++ [.star .dot] ++ litsOf ("*/")),
    ("UNION\\s+.*SELECT", litsOf ("UNION") ++ wsPlus ++ [.star .dot] ++ litsOf ("SELECT")),
    ("EXEC\\s*\\(", litsOf ("EXEC") ++ [.star .ws, .lit '(']),
    ("xp_\\w+", litsOf ("XP_") ++ wordPlus),
    ("sp_\\w+", litsOf ("SP_") ++ wordPlus) ]

/-- The `for pattern in self.injection_patterns: if re.search(...)` loop:
the first matching pattern's source text, if any. -/
def injectionSearch (s : String) : Option String :=
  (injection_patterns.find? (fun p => searchItems p.2 s.data)).map (·.1)

def read_only_commands : List String :=
  ["SELECT", "SHOW", "DESCRIBE", "DESC", "EXPLAIN", "PRAGMA"]

def write_commands : List String := ["INSERT", "UPDATE", "DELETE", "REPLACE"]

def ddl_commands : List String := ["CREATE", "ALTER", "DROP", "TRUNCATE", "RENAME"]

def dangerous_commands : List String := ["DROP", "TRUNCATE", "DELETE", "ALTER"]

/-- `SQLExecutorService.validate_query` (lines 156-184): returns
`(is_valid, command_type, error_message)`.  Note that it does **not**
strip comments and has no multi-statement check; its only pattern gate is
the `injection_patterns` loop. -/
def validate_query (query : String) : Bool × String × String :=
  if query = "" ∨ pyStrip query = "" then (false, "", "Empty query")
  else
    let clean_query := pyUpper (pyStrip query)
    match injectionSearch clean_query with
    | some pat => (false, "", "Potentially dangerous pattern detected: " ++ pat)
    | none =>
      let first_word := firstWord clean_query
      if read_only_commands.contains first_word then (true, "READ", "")
      else if write_commands.contains first_word then (true, "WRITE", "")
      else if ddl_commands.contains first_word then
        if dangerous_commands.contains first_word then
          (false, "DANGEROUS", "Dangerous command: " ++ first_word)
        else (true, "DDL", "")
      else (false, "UNKNOWN", "Unknown or unsupported command: " ++ first_word)

/-- What the gateway decides to do with a query, before any database
interaction: refuse with an error (and the reported `query_type`), run a
read (for `SELECT`, with the exact paginated SQL text that will be handed
to the database), or run a write/DDL statement in a transaction. -/
inductive QueryDecision where
  | refuse (error : String) (queryType : String)
  | runRead (paginated : Option String)
  | runWrite
deriving DecidableEq

/-- The **active** `SQLExecutorService.execute_query` (lines 675-771; in
Python the second `def execute_query` in the class body shadows the first,
so this is the definition every caller observes).  Decision part only: the
cursor work after the decision is database interaction.

Faithful details: when `validate_query` reports `DANGEROUS` and
`allow_dangerous` is true, the first branch is skipped but the
`elif not is_valid` branch still returns the refusal; pagination is an
unconditional `f"{query} LIMIT {page_size} OFFSET {offset}"` append. -/
def execute_query_decision (query : String) (page page_size : Int)
    (allow_dangerous : Bool) : QueryDecision :=
  let v := validate_query query
  let is_valid := v.1
  let command_type := v.2.1
  let error_msg := v.2.2
  if !is_valid then
    if command_type = "DANGEROUS" ∧ allow_dangerous = false then
      .refuse ("Dangerous operation blocked: " ++ error_msg) command_type
    else
      .refuse error_msg command_type
  else if command_type = "READ" then
    if pyStartsWith (pyStrip (pyUpper query)) ("SELECT") then
      let offset := (page - 1) * page_size
      .runRead (some (query ++ " LIMIT " ++ pyIntStr page_size ++
                      " OFFSET " ++ pyIntStr offset))
    else
      .runRead none
  else
    .runWrite

/-! ## The shadowed first `execute_query` (lines 188-292) and `analyze_query`

`SQLExecutorService` defines `execute_query` twice; Python class-body
semantics make the later definition (embedded above) the one bound on the
class, so the pipeline below is unreachable through `execute_query`.  It
is embedded to compare the two. -/

/-- One pass of `re.sub(r'--.*$', '', line, flags=re.MULTILINE)` on a
single line: keep the prefix before the first `--`. -/
def beforeDoubleDash : List Char → List Char
  | [] => []
  | '-' :: '-' :: _ => []
  | c :: l => c :: beforeDoubleDash l

/-- Split on a separator character, keeping empty fields (Python
`str.split(sep)`). -/
def splitOnChar (sep : Char) : List Char → List (List Char)
  | [] => [[]]
  | c :: l =>
    match splitOnChar sep l with
    | [] => [[]]
    | w :: ws => if c == sep then [] :: w :: ws else (c :: w) :: ws

def joinWithChar (sep : Char) : List (List Char) → List Char
  | [] => []
  | [w] => w
  | w :: ws => w ++ sep :: joinWithChar sep ws

/-- `re.sub(r'--.*$', '', s, flags=re.MULTILINE)`: on every line, drop
everything from the first `--` on. -/
def stripLineComments (l : List Char) : List Char :=
  joinWithChar '\n' ((splitOnChar '\n' l).map beforeDoubleDash)

/-- Rest of the input after the first `*/`, if present. -/
def dropToStarSlash : List Char → Option (List Char)
  | [] => none
  | '*' :: '/' :: l => some l
  | _ :: l => dropToStarSlash l

/-- `re.sub(r'/\*.*?\*/', '', s, flags=re.DOTALL)`: repeatedly remove the
leftmost `/* ... */` span (shortest closing, newlines allowed); an
unterminated `/*` is not a match and is kept.  The fuel is the input
length: every step consumes at least one character. -/
def stripBlockFuel : Nat → List Char → List Char
  | 0, l => l
  | _ + 1, [] => []
  | fuel + 1, '/' :: '*' :: l =>
    (match dropToStarSlash l with
     | some rest => stripBlockFuel fuel rest
     | none => '/' :: '*' :: l)
  | fuel + 1, c :: l => c :: stripBlockFuel fuel l

def stripBlockComments (l : List Char) : List Char := stripBlockFuel l.length l

/-- `' '.join(s.split())`. -/
def normalizeWs (l : List Char) : List Char := joinWithChar ' ' (wordsChars l)

/-- Python `str.rstrip(';')`: remove trailing semicolons only. -/
def pyRStripSemis (s : String) : String :=
  ⟨(dropWhileB (fun c => c == ';') s.data.reverse).reverse⟩

structure QueryAnalysis where
  command : String
  is_read_only : Bool
  is_write : Bool
  is_ddl : Bool
  is_dangerous : Bool
  is_multi_statement : Bool
  estimated_risk : String
  warnings : List String
deriving DecidableEq

/-- `SQLExecutorService.analyze_query` (lines 111-154).  Note the
multi-statement test runs on the *original* text (`';' in
query.rstrip(';')`) while the injection patterns are searched on the
comment-stripped, whitespace-normalised upper-case text. -/
def analyze_query (query : String) : QueryAnalysis :=
  let query_clean : String :=
    ⟨normalizeWs (stripBlockComments (stripLineComments (pyUpper (pyStrip query)).data))⟩
  let first_word := firstWord query_clean
  let is_read_only := read_only_commands.contains first_word
  let is_write := write_commands.contains first_word
  let is_ddl := ddl_commands.contains first_word
  let is_dangerous := dangerous_commands.contains first_word
  let is_multi := hasSubstr (pyRStripSemis query) (";")
  let risk₀ := "LOW"
  let warns₀ : List String := []
  let risk₁ := if is_dangerous then "HIGH" else risk₀
  let warns₁ := if is_dangerous then warns₀ ++ ["Dangerous command: " ++ first_word] else warns₀
  let risk₂ := if is_ddl then (if risk₁ = "LOW" then "MEDIUM" else "HIGH") else risk₁
  let warns₂ := if is_ddl then warns₁ ++ ["Schema modification command"] else warns₁
  let risk₃ := if is_multi then "HIGH" else risk₂
  let warns₃ := if is_multi then warns₂ ++ ["Multiple statements detected"] else warns₂
  let hit := injectionSearch query_clean
  let risk₄ := if hit.isSome then "CRITICAL" else risk₃
  let warns₄ := if hit.isSome then warns₃ ++ ["Potential SQL injection pattern detected"] else warns₃
  { command := first_word, is_read_only := is_read_only, is_write := is_write,
    is_ddl := is_ddl, is_dangerous := is_dangerous, is_multi_statement := is_multi,
    estimated_risk := risk₄, warnings := warns₄ }

/-- Maximal run of characters satisfying `p`, requiring at least one
(`\s+`, `\d+`); returns the rest.  Maximal munch is exact here because in
the pattern `\s+LIMIT\s+\d+(\s+OFFSET\s+\d+)?` every class is disjoint
from the literal that follows it. -/
def munch1 (p : Char → Bool) : List Char → Option (List Char)
  | [] => none
  | c :: l => if p c then some (dropWhileB p l) else none

/-- Case-insensitive literal word match; returns the rest. -/
def matchLitCI : List Char → List Char → Option (List Char)
  | [], l => some l
  | _ :: _, [] => none
  | w :: ws, c :: l => if w == c.toUpper then matchLitCI ws l else none

/-- Match `\s+LIMIT\s+\d+(\s+OFFSET\s+\d+)?` (IGNORECASE) at the head of
the input; returns the rest after the match. -/
def matchLimitAt (l : List Char) : Option (List Char) :=
  (munch1 isPySpace l).bind fun l₁ =>
  (matchLitCI ("LIMIT").data l₁).bind fun l₂ =>
  (munch1 isPySpace l₂).bind fun l₃ =>
  (munch1 Char.isDigit l₃).map fun l₄ =>
    match (munch1 isPySpace l₄).bind (matchLitCI ("OFFSET").data) |>.bind
          (munch1 isPySpace) |>.bind (munch1 Char.isDigit) with
    | some l₈ => l₈
    | none => l₄

/-- `re.sub` with the LIMIT pattern: replace every non-overlapping match,
scanning left to right.  Fuel is the input length (each step consumes at
least one character). -/
def subLimitFuel (rep : List Char) : Nat → List Char → List Char
  | 0, l => l
  | _ + 1, [] => []
  | fuel + 1, c :: l =>
    match matchLimitAt (c :: l) with
    | some rest => rep ++ subLimitFuel rep fuel rest
    | none => c :: subLimitFuel rep fuel l

/-- The pagination rewrite of `_execute_read_query` (lines 350-359):
append `LIMIT/OFFSET` when the query has no `LIMIT`, otherwise *replace*
the existing clause via `re.sub`. -/
def paginate_v1 (query : String) (page per_page : Int) : String :=
  let offset := (page - 1) * per_page
  let base := pyRStripSemis query
  let clause := " LIMIT " ++ pyIntStr per_page ++ " OFFSET " ++ pyIntStr offset
  if hasSubstr (pyUpper (pyRStripSemis (pyStrip query))) ("LIMIT") then
    ⟨subLimitFuel clause.data base.data.length base.data⟩
  else
    base ++ clause

/-- Decision part of the first `execute_query` (lines 188-292): refusals
for CRITICAL risk, un-approved dangerous commands and multi-statement
text, then dispatch to `_execute_read_query` / `_execute_write_query`.
(The database-file existence check is environment state and assumed to
pass.) -/
def execute_query_v1_decision (query : String) (page per_page : Int)
    (allow_dangerous : Bool) : QueryDecision :=
  if query = "" ∨ pyStrip query = "" then .refuse ("Empty query provided") ""
  else
    let analysis := analyze_query query
    if analysis.estimated_risk = "CRITICAL" then
      .refuse ("Query blocked due to security concerns") ""
    else if analysis.is_dangerous && !allow_dangerous then
      .refuse ("Dangerous query blocked. Admin approval required.") ""
    else if analysis.is_multi_statement then
      .refuse ("Multiple statements not allowed for security") ""
    else if analysis.is_read_only then
      if analysis.command = "SELECT" then
        .runRead (some (paginate_v1 query page per_page))
      else .runRead none
    else if analysis.is_write || analysis.is_ddl then .runWrite
    else .refuse ("Unsupported command: " ++ analysis.command) ""

/-! ## LLM gateway (`backend/services.py`, `LLMService`)

The provider (`client.chat.completions.create`) is an external effect; it
is modelled by a `ProviderOutcome` oracle value: either a response with
its token usage, or a raised exception carrying `str(e)`.  Wall-clock
durations are modelled by a non-negative `elapsed` parameter.  The merged
call parameters and the prompt are inputs to the provider and are
absorbed by the oracle. -/

structure ModelRec where
  provider : String
  model_name : String
  cost_per_token : ℚ
deriving DecidableEq

structure LlmResult where
  success : Bool
  response : String
  error : Option String
  prompt_tokens : Nat
  completion_tokens : Nat
  total_tokens : Nat
  cost : ℚ
  duration : ℚ
deriving DecidableEq

inductive ProviderOutcome where
  | ok (response : String) (prompt_tokens completion_tokens total_tokens : Nat)
  | exn (msg : String)
deriving DecidableEq

/-- The failure record built by the `except` blocks of `call_llm` and
`_call_azure_openai` (identical shape in both). -/
def llmFailure (msg : String) (elapsed : ℚ) : LlmResult :=
  { success := false, response := "", error := some msg, prompt_tokens := 0,
    completion_tokens := 0, total_tokens := 0, cost := 0,
    duration := pyRound elapsed 3 }

/-- `LLMService._call_azure_openai` (lines 74-149): mock result when no
client is configured, otherwise the provider call with cost
`round(total_tokens * cost_per_token, 5)`; any exception is caught and
returned as a failure record. -/
def call_azure_openai (model : ModelRec) (prompt : String) (hasClient : Bool)
    (outcome : ProviderOutcome) (elapsed : ℚ) : LlmResult :=
  if !hasClient then
    { success := true,
      response := "Mock response for prompt: " ++ (⟨prompt.data.take 100⟩ : String) ++
                  "... This is a simulated AI response for testing purposes.",
      error := none, prompt_tokens := 50, completion_tokens := 25, total_tokens := 75,
      cost := pyRound (75 * model.cost_per_token) 5, duration := pyRound elapsed 3 }
  else
    match outcome with
    | .ok r p c t =>
      { success := true, response := r, error := none, prompt_tokens := p,
        completion_tokens := c, total_tokens := t,
        cost := pyRound ((t : ℚ) * model.cost_per_token) 5,
        duration := pyRound elapsed 3 }
    | .exn m => llmFailure m elapsed

/-- `LLMService.call_llm` (lines 51-72): dispatch on the provider; an
unsupported provider raises `ValueError`, caught by the method's own
`except` into a failure record. -/
def call_llm (model : ModelRec) (prompt : String) (hasClient : Bool)
    (outcome : ProviderOutcome) (elapsed : ℚ) : LlmResult :=
  if model.provider = "azure_openai" then
    call_azure_openai model prompt hasClient outcome elapsed
  else
    llmFailure ("Unsupported provider: " ++ model.provider) elapsed

/-! ## Agent runner (`backend/services.py`, `AgentService`)

The LLM gateway is abstracted as an oracle `llm : Nat → LlmResult` giving
the result of the i-th call of the run (the conversation text each call
receives is still threaded, as in the source, but the oracle is indexed
by call order).  `ToolService.execute_tool` is the oracle
`ToolSvc : name → parsed parameters → ToolResult`. -/

inductive JVal where
  | jnull
  | jbool (b : Bool)
  | jint (n : Int)
  | jstr (s : String)
  | jdict (fields : List (String × JVal))

def joinWithComma : List String → String
  | [] => ""
  | [s] => s
  | s :: rest => s ++ ", " ++ joinWithComma rest

/-- Python `str(v)` for the payload values above (dict rendering is a
simplified `repr` without escape handling; it only ever feeds prompt text
consumed by the LLM oracle, and error text for non-scalar agent ids). -/
def jvalToPyStr : JVal → String
  | .jnull => "None"
  | .jbool true => "True"
  | .jbool false => "False"
  | .jint n => pyIntStr n
  | .jstr s => s
  | .jdict fs =>
    "\x7b" ++
      joinWithComma (fs.attach.map (fun q =>
        "'" ++ q.1.1 ++ "': " ++
          (match q.1.2 with
           | .jstr s => "'" ++ s ++ "'"
           | _ => jvalToPyStr q.1.2))) ++ "\x7d"
termination_by v => sizeOf v
decreasing_by
  simp_wf
  have h1 := List.sizeOf_lt_of_mem q.2
  obtain ⟨⟨k, v⟩, hq⟩ := q
  simp at h1 ⊢
  omega

structure ToolRec where
  name : String
  description : String
deriving DecidableEq

structure ToolResult where
  success : Bool
  output : Option String
  error : Option String
  duration : ℚ
deriving DecidableEq

def ToolSvc := String → List (String × String) → ToolResult

inductive FormatErr where
  | missingKey (k : String)
  | badFormat (msg : String)
deriving DecidableEq

/-- Characters of a replacement-field name up to the closing brace, plus
the rest; `none` when the field is never closed. -/
def spanToRBrace : List Char → Option (List Char × List Char)
  | [] => none
  | '}' :: l => some ([], l)
  | c :: l => (spanToRBrace l).map (fun p => (c :: p.1, p.2))

def lookupJ (d : List (String × JVal)) (k : String) : Option JVal :=
  (d.find? (fun p => p.1 = k)).map (·.2)

/-- `template.format(**input_data)` for the `{name}`-style templates used
by the prompts: `{{`/`}}` escapes, `{name}` substitution, `KeyError` on a
missing name, `ValueError` on an unbalanced brace.  Fuel is the template
length (each step consumes at least one character). -/
def pyFormatFuel (d : List (String × JVal)) : Nat → List Char → Except FormatErr (List Char)
  | 0, l => .ok l
  | _ + 1, [] => .ok []
  | fuel + 1, '{' :: '{' :: l => (pyFormatFuel d fuel l).map ('{' :: ·)
  | fuel + 1, '}' :: '}' :: l => (pyFormatFuel d fuel l).map ('}' :: ·)
  | fuel + 1, '{' :: l =>
    (match spanToRBrace l with
     | none => .error (.badFormat ("Single '\x7b' encountered in format string"))
     | some (name, rest) =>
       match lookupJ d ⟨name⟩ with
       | none => .error (.missingKey ⟨name⟩)
       | some v => (pyFormatFuel d fuel rest).map ((jvalToPyStr v).data ++ ·))
  | _ + 1, '}' :: _ => .error (.badFormat ("Single '\x7d' encountered in format string"))
  | fuel + 1, c :: l => (pyFormatFuel d fuel l).map (c :: ·)

def pyFormat (template : String) (d : List (String × JVal)) : Except FormatErr String :=
  (pyFormatFuel d template.data.length template.data).map (⟨·⟩)

/-- `AgentService._fill_prompt_template` (lines 376-381): a `KeyError e`
from `format` becomes `ValueError(f"Missing required input parameter: {e}")`
and `str(KeyError('x'))` is `"'x'"`; other format errors propagate with
their own text. -/
def fill_prompt_template (template : String) (input_data : List (String × JVal)) :
    Except String String :=
  match pyFormat template input_data with
  | .ok s => .ok s
  | .error (.missingKey k) => .error ("Missing required input parameter: '" ++ k ++ "'")
  | .error (.badFormat m) => .error m

/-! ### Tool-call parsing and the ReAct loop -/

/-- Characters before the first occurrence of `sep`
(`s.split(sep)[0]` / `s.split(sep, 1)[0]`). -/
def beforeFirstChar (sep : Char) : List Char → List Char
  | [] => []
  | c :: l => if c == sep then [] else c :: beforeFirstChar sep l

/-- Characters after the first occurrence of `sep` (`s.split(sep, 1)[1]`;
empty when `sep` does not occur, callers guard on containment). -/
def afterFirstChar (sep : Char) : List Char → List Char
  | [] => []
  | c :: l => if c == sep then l else afterFirstChar sep l

/-- Characters before the last occurrence of `sep` (`s.rsplit(sep, 1)[0]`;
the whole input when `sep` does not occur). -/
def beforeLastChar (sep : Char) (l : List Char) : List Char :=
  if l.contains sep then (afterFirstChar sep l.reverse).reverse else l

/-- Text after the first occurrence of the substring `needle`
(`s.split(needle, 1)[1]`; callers guard on containment). -/
def afterSubstrChars (needle : List Char) : List Char → List Char
  | [] => []
  | c :: l =>
    if isPrefixChars needle (c :: l) then (c :: l).drop needle.length
    else afterSubstrChars needle l

/-- Python `value.strip().strip('"\'')`: whitespace, then any mix of the
two quote characters, from both ends. -/
def stripQuotes (l : List Char) : List Char :=
  let isQ : Char → Bool := fun c => c == '"' || c == '\''
  (dropWhileB isQ ((dropWhileB isQ (stripChars l).reverse).reverse))

/-- Dict insertion `params[key] = value`: override an existing key in
place, else append. -/
def pyDictSetStr (d : List (String × String)) (k v : String) : List (String × String) :=
  if d.any (fun p => p.1 = k) then d.map (fun p => if p.1 = k then (k, v) else p)
  else d ++ [(k, v)]

/-- The parameter parsing of `AgentService._execute_tool_call`
(lines 528-539): split the text between the outer parentheses on commas,
take `key=value` fragments, strip the key, strip and unquote the value. -/
def parseToolParams (params_str : List Char) : List (String × String) :=
  if stripChars params_str = [] then []
  else
    (splitOnChar ',' params_str).foldl
      (fun acc param =>
        if param.contains '=' then
          pyDictSetStr acc ⟨stripChars (beforeFirstChar '=' param)⟩
            ⟨stripQuotes (afterFirstChar '=' param)⟩
        else acc)
      []

/-- `AgentService._execute_tool_call` (lines 507-550): resolve the tool by
the name before `(`, parse the flat parameter list, call the tool
executor. -/
def execute_tool_call (tools : List ToolRec) (tsv : ToolSvc) (tool_call : String) :
    ToolResult :=
  let tool_name : String := ⟨stripChars (beforeFirstChar '(' tool_call.data)⟩
  match tools.find? (fun t => t.name = tool_name) with
  | none =>
    { success := false, output := none,
      error := some ("Tool '" ++ tool_name ++ "' not found"), duration := 0 }
  | some t =>
    let params :=
      if tool_call.data.contains '(' && tool_call.data.contains ')' then
        parseToolParams (beforeLastChar ')' (afterFirstChar '(' tool_call.data))
      else []
    tsv t.name params

/-- A step dict appended by the agent runner: the `llm_call` shape (with
the 1-based `iteration` field in the tool loop, absent for the simple
path) and the `tool_call` shape. -/
inductive AStep where
  | llm (iteration : Option Nat) (success : Bool) (duration : ℚ) (tokens : Nat) (cost : ℚ)
  | tool (tool_call : String) (success : Bool) (duration : ℚ) (error : Option String)
deriving DecidableEq

def AStep.stepType : AStep → String
  | .llm _ _ _ _ _ => "llm_call"
  | .tool _ _ _ _ => "tool_call"

/-- The result dict of an agent run.  `total_tokens`/`total_cost` are
absent on the error paths of `execute_agent`; they are read back with
`.get(..., 0)` defaults downstream, so absence is modelled as `0`;
`iterations` is only present in the tool-loop results. -/
structure AgentResult where
  success : Bool
  output : Option String
  error : Option String
  duration : ℚ
  steps : List AStep
  total_tokens : Nat
  total_cost : ℚ
  iterations : Option Int
deriving DecidableEq

def exceededMsg (maxIter : Int) : String :=
  "Agent exceeded maximum iterations (" ++ pyIntStr maxIter ++ ")"

/-- The return executed after the `for` loop of
`_execute_agent_with_tools` (lines 494-505), reached both by exhausting
`range(max_iterations)` and by the `break` on a failed LLM call. -/
def exceededResult (maxIter : Int) (elapsed : ℚ) (steps : List AStep)
    (ttok : Nat) (tcost : ℚ) : AgentResult :=
  { success := false, output := none, error := some (exceededMsg maxIter),
    duration := pyRound elapsed 3, steps := steps, total_tokens := ttok,
    total_cost := tcost, iterations := some maxIter }

def strOfOpt : Option String → String
  | none => "None"
  | some s => s

def joinNewline : List String → String
  | [] => ""
  | [s] => s
  | s :: rest => s ++ "\n" ++ joinNewline rest

/-- The `enhanced_prompt` of `_execute_agent_with_tools` (lines 418-431). -/
def enhancedPrompt (prompt : String) (tools : List ToolRec) : String :=
  prompt ++ "\n\nYou have access to the following tools:\n" ++
  joinNewline (tools.map (fun t => "- " ++ t.name ++ ": " ++ t.description)) ++
  "\n\nTo use a tool, respond with: TOOL_CALL: tool_name(parameter1=value1, parameter2=value2)\n" ++
  "After using a tool, you'll receive the result. Continue reasoning based on the result.\n" ++
  "When you have the final answer, respond with: FINAL_ANSWER: your answer here\n"

/-- The `for iteration in range(max_iterations)` loop of
`_execute_agent_with_tools` (lines 435-505), one call of the LLM oracle
per iteration: a failed call records its step, accumulates its (zero)
tokens/cost and `break`s to `exceededResult`; a `FINAL_ANSWER:` marker
returns successfully; a `TOOL_CALL:` marker executes the tool and records
a `tool_call` step; otherwise the raw response is appended to the
transcript and the loop continues.  `remaining` is the number of loop
iterations `range(max_iterations)` still has to run (initially
`max_iterations.toNat`, matching `range`'s behaviour on non-positive
bounds); `i` is the 0-based `iteration` variable indexing the oracle. -/
def reactGo (maxIter : Int) (tools : List ToolRec) (llm : Nat → LlmResult)
    (tsv : ToolSvc) (elapsed : ℚ) :
    (remaining : Nat) → (i : Nat) → (conv : List String) →
    (steps : List AStep) → (ttok : Nat) → (tcost : ℚ) → AgentResult
  | 0, _, _, steps, ttok, tcost => exceededResult maxIter elapsed steps ttok tcost
  | remaining + 1, i, conv, steps, ttok, tcost =>
    let r := llm i
    let steps₁ := steps ++ [.llm (some (i + 1)) r.success r.duration r.total_tokens r.cost]
    let ttok₁ := ttok + r.total_tokens
    let tcost₁ := pyRound (tcost + r.cost) 5
    if r.success = false then
      exceededResult maxIter elapsed steps₁ ttok₁ tcost₁
    else
      let conv₁ := conv ++ ["Assistant: " ++ r.response]
      if hasSubstr r.response ("FINAL_ANSWER:") then
        { success := true,
          output := some (pyStrip ⟨afterSubstrChars ("FINAL_ANSWER:").data r.response.data⟩),
          error := none, duration := pyRound elapsed 3, steps := steps₁,
          total_tokens := ttok₁, total_cost := tcost₁, iterations := some ((i : Int) + 1) }
      else if hasSubstr r.response ("TOOL_CALL:") then
        let tc := pyStrip ⟨afterSubstrChars ("TOOL_CALL:").data r.response.data⟩
        let tr := execute_tool_call tools tsv tc
        let steps₂ := steps₁ ++ [.tool tc tr.success tr.duration tr.error]
        let conv₂ := conv₁ ++
          [if tr.success then "Tool Result: " ++ strOfOpt tr.output
           else "Tool Error: " ++ strOfOpt tr.error]
        reactGo maxIter tools llm tsv elapsed remaining (i + 1) conv₂ steps₂ ttok₁ tcost₁
      else
        reactGo maxIter tools llm tsv elapsed remaining (i + 1) conv₁ steps₁ ttok₁ tcost₁

/-- `agent.parameters.get('max_iterations', 5)`.  The parameters dict is
modelled as `List (String × Int)`: `max_iterations` is the only key this
code path reads (the remaining entries are provider call overrides,
absorbed by the LLM oracle). -/
def maxIterationsOf (ps : List (String × Int)) : Int :=
  match ps.lookup ("max_iterations") with
  | some n => n
  | none => 5

/-- `AgentService._execute_agent_with_tools` (lines 408-505).  The
`parameters` dict is passed explicitly and is non-`None` here; the `None`
case raises `AttributeError` at line 411, which surfaces in
`execute_agent`'s `except` (see `execute_agent`). -/
def execute_agent_with_tools (tools : List ToolRec) (ps : List (String × Int))
    (prompt : String) (llm : Nat → LlmResult) (tsv : ToolSvc) (elapsed : ℚ) :
    AgentResult :=
  reactGo (maxIterationsOf ps) tools llm tsv elapsed (maxIterationsOf ps).toNat 0
    ["User: " ++ enhancedPrompt prompt tools] [] 0 0

/-- `AgentService._execute_simple_agent` (lines 383-406): one LLM call,
one `llm_call` step, the response text verbatim as output on success. -/
def execute_simple_agent (llm : Nat → LlmResult) (elapsed : ℚ) : AgentResult :=
  let r := llm 0
  { success := r.success,
    output := if r.success then some r.response else none,
    error := r.error,
    duration := pyRound elapsed 3,
    steps := [.llm none r.success r.duration r.total_tokens r.cost],
    total_tokens := r.total_tokens, total_cost := r.cost, iterations := none }

structure AgentRec where
  tools : List ToolRec
  parameters : Option (List (String × Int))

/-- The failure record built by `execute_agent`'s `except` block
(lines 366-374): error message, empty step list. -/
def errAgentResult (msg : String) (elapsed : ℚ) : AgentResult :=
  { success := false, output := none, error := some msg,
    duration := pyRound elapsed 3, steps := [], total_tokens := 0,
    total_cost := 0, iterations := none }

/-- `AgentService.execute_agent` (lines 345-374): resolve model and
prompt (`model?`/`prompt_template?` stand for the `Model.query.get` /
`Prompt.query.get` lookups), fill the template, then dispatch on whether
the agent has tools.  Exceptions — missing references, template
`KeyError`, and the `AttributeError` from
`agent.parameters.get` when `parameters` is `None` — are caught by the
method's `except` into `errAgentResult`. -/
def execute_agent (agent : AgentRec) (model? : Option ModelRec)
    (prompt_template? : Option String) (input_data : List (String × JVal))
    (llm : Nat → LlmResult) (tsv : ToolSvc) (elapsed : ℚ) : AgentResult :=
  match model?, prompt_template? with
  | some _, some tmpl =>
    (match fill_prompt_template tmpl input_data with
     | .error e => errAgentResult e elapsed
     | .ok filled =>
       if agent.tools.isEmpty then
         execute_simple_agent llm elapsed
       else
         match agent.parameters with
         | none => errAgentResult ("'NoneType' object has no attribute 'get'") elapsed
         | some ps => execute_agent_with_tools agent.tools ps filled llm tsv elapsed)
  | _, _ => errAgentResult ("Agent model or prompt not found") elapsed

/-! ## Workflow runner (`backend/services.py`, `WorkflowService`)

`Agent.query.get(agent_id)` and `agent_service.execute_agent` are
abstracted as a context: `agentFound` tells whether the id resolves and
`runAgent` gives the agent run's result record (the fields the workflow
code reads).  Wall-clock step timings are one `nodeDur` oracle value.

A scoping slip in the source matters throughout: inside the nested
`execute_node` closure (line 650) the statement
`total_cost = round(total_cost + result.get('total_cost', 0), 5)`
makes `total_cost` local to `execute_node` without a `nonlocal`
declaration, so evaluating its right-hand side raises
`UnboundLocalError` whenever an agent node succeeds — after
`node_outputs[node_id]` has already been assigned — and the enclosing
`total_cost` stays `0.0` forever.  The embedding reproduces exactly
that control flow. -/

/-- `str(UnboundLocalError)` for the `total_cost` slip (CPython ≥ 3.11
wording; older interpreters say "local variable 'total_cost' referenced
before assignment" — no theorem below depends on the wording, only on the
raise itself). -/
def totalCostUnboundMsg : String :=
  "cannot access local variable 'total_cost' where it is not associated with a value"

structure WfNode where
  node_id : String
  node_type : String
  configuration : List (String × JVal)

structure WfConn where
  source_node_id : String
  target_node_id : String

/-- The fields of an `execute_agent` result record that
`_execute_workflow_graph` reads. -/
structure WfAgentRes where
  success : Bool
  output : JVal
  error : Option String
  total_cost : ℚ

structure WfCtx where
  agentFound : JVal → Bool
  runAgent : JVal → List (String × JVal) → WfAgentRes

structure WfStep where
  node_id : String
  node_type : String
  success : Bool
  duration : ℚ
  output : Option JVal
  error : Option String

/-- The mutable closure state of `_execute_workflow_graph`:
`executed_nodes`, `node_outputs`, `steps` (in insertion order). -/
structure WfState where
  executed : List String
  outputs : List (String × JVal)
  steps : List WfStep

/-- Python dict assignment `d[k] = v`: override in place, else append. -/
def pyDictSetJ (d : List (String × JVal)) (k : String) (v : JVal) :
    List (String × JVal) :=
  if d.any (fun p => p.1 = k) then d.map (fun p => if p.1 = k then (k, v) else p)
  else d ++ [(k, v)]

/-- Python `d1.update(d2)`. -/
def pyDictUpdateJ (d₁ d₂ : List (String × JVal)) : List (String × JVal) :=
  d₂.foldl (fun acc p => pyDictSetJ acc p.1 p.2) d₁

/-- Python falsiness (`if not agent_id`). -/
def pyFalsy : JVal → Bool
  | .jnull => true
  | .jbool b => !b
  | .jint n => n == 0
  | .jstr s => s = ""
  | .jdict d => d.isEmpty

/-- `WorkflowService._build_execution_graph` (lines 589-597): adjacency
lists keyed in node order; a connection whose source id is not a node key
raises `KeyError` (`str(KeyError('x')) = "'x'"`). -/
def build_execution_graph (nodes : List WfNode) (conns : List WfConn) :
    Except String (List (String × List String)) :=
  conns.foldlM
    (fun g c =>
      if g.any (fun p => p.1 = c.source_node_id) then
        .ok (g.map (fun p =>
          if p.1 = c.source_node_id then (p.1, p.2 ++ [c.target_node_id]) else p))
      else .error ("'" ++ c.source_node_id ++ "'"))
    (nodes.map (fun n => (n.node_id, ([] : List String))))

/-- `WorkflowService._get_node_input` (lines 710-725): merge the outputs
of every producing predecessor in graph order; dict outputs are merged,
anything else is keyed `{source}_output`. -/
def get_node_input (node_id : String) (graph : List (String × List String))
    (outputs : List (String × JVal)) : List (String × JVal) :=
  graph.foldl
    (fun acc p =>
      if p.2.contains node_id then
        match lookupJ outputs p.1 with
        | some (.jdict d) => pyDictUpdateJ acc d
        | some v => pyDictSetJ acc (p.1 ++ "_output") v
        | none => acc
      else acc)
    []

def wfOkStep (node_id node_type : String) (dur : ℚ) (out : Option JVal) : WfStep :=
  { node_id := node_id, node_type := node_type, success := true,
    duration := pyRound dur 3, output := out, error := none }

def wfFailStep (node_id node_type : String) (dur : ℚ) (e : String) : WfStep :=
  { node_id := node_id, node_type := node_type, success := false,
    duration := pyRound dur 3, output := none, error := some e }

/-- The nested `execute_node` of `_execute_workflow_graph`
(lines 615-683), with the raise/`except` control flow made explicit: the
second component is the exception being propagated, and the state carries
the mutations (including failure steps appended by `except` blocks)
performed before the raise.  The `for child_id in graph.get(node_id, [])`
loop inside the `try` is the fold over the children: sequential, aborted
by the first exception, which the node's `except` turns into one more
failure step for the node itself before re-raising.

The fuel only bounds the recursion: each non-guarded call appends a new
node to `executed` before recursing, so depth never exceeds the node
count and callers pass `nodes.length + 1`. -/
def execute_node (ctx : WfCtx) (nodes : List WfNode)
    (graph : List (String × List String)) (input_data : List (String × JVal))
    (nodeDur : ℚ) : Nat → String → WfState → WfState × Option String
  | 0, _, st => (st, some ("recursion depth exceeded"))
  | fuel + 1, node_id, st =>
    if st.executed.contains node_id then (st, none)
    else
      match nodes.find? (fun n => n.node_id = node_id) with
      | none => (st, some ("'" ++ node_id ++ "'"))
      | some node =>
        let branch : WfState × Option String :=
          if node.node_type = "start" then
            ({ st with outputs := pyDictSetJ st.outputs node_id (.jdict input_data) }, none)
          else if node.node_type = "input" then
            let dv := (lookupJ node.configuration ("default_value")).getD (.jdict [])
            ({ st with outputs := pyDictSetJ st.outputs node_id dv }, none)
          else if node.node_type = "agent" then
            match lookupJ node.configuration ("agent_id") with
            | none => (st, some ("No agent specified for node " ++ node_id))
            | some aid =>
              if pyFalsy aid then (st, some ("No agent specified for node " ++ node_id))
              else if !ctx.agentFound aid then
                (st, some ("Agent " ++ jvalToPyStr aid ++ " not found"))
              else
                let agent_input := get_node_input node_id graph st.outputs
                let res := ctx.runAgent aid agent_input
                if res.success then
                  -- `node_outputs[node_id] = result['output']` lands, then the
                  -- `total_cost` accumulation raises UnboundLocalError
                  ({ st with outputs := pyDictSetJ st.outputs node_id res.output },
                   some totalCostUnboundMsg)
                else
                  (st, some ("Agent execution failed: " ++ strOfOpt res.error))
          else if node.node_type = "end" then
            let fin := JVal.jdict (get_node_input node_id graph st.outputs)
            ({ st with outputs := pyDictSetJ st.outputs node_id fin }, none)
          else
            (st, none)  -- unrecognized node types: no branch taken, no output
        match branch with
        | (st₁, some e) =>
          ({ st₁ with steps := st₁.steps ++ [wfFailStep node_id node.node_type nodeDur e] },
           some e)
        | (st₁, none) =>
          let st₂ := { st₁ with
            executed := st₁.executed ++ [node_id],
            steps := st₁.steps ++
              [wfOkStep node_id node.node_type nodeDur (lookupJ st₁.outputs node_id)] }
          let children := ((graph.find? (fun p => p.1 = node_id)).map (·.2)).getD []
          match children.foldl
              (fun acc c =>
                match acc with
                | (stx, some e) => (stx, some e)
                | (stx, none) => execute_node ctx nodes graph input_data nodeDur fuel c stx)
              (st₂, none) with
          | (st₃, some e) =>
            ({ st₃ with steps := st₃.steps ++ [wfFailStep node_id node.node_type nodeDur e] },
             some e)
          | (st₃, none) => (st₃, none)

/-- A sequential run of `execute_node` over a list of node ids, aborted by
the first exception (the `for start_node in start_nodes` loop). -/
def runChildren (ctx : WfCtx) (nodes : List WfNode)
    (graph : List (String × List String)) (input_data : List (String × JVal))
    (nodeDur : ℚ) (fuel : Nat) (cs : List String) (st : WfState) :
    WfState × Option String :=
  cs.foldl
    (fun acc c =>
      match acc with
      | (stx, some e) => (stx, some e)
      | (stx, none) => execute_node ctx nodes graph input_data nodeDur fuel c stx)
    (st, none)

structure WfGraphResult where
  success : Bool
  output : JVal
  error : Option String
  steps : List WfStep
  total_cost : ℚ
  nodes_executed : Nat

/-- `WorkflowService._execute_workflow_graph` (lines 599-708): require a
start node, run the traversal from every start node, then collect the
`end`-node outputs (falling back to the most recent output when there is
no `end` output).  The returned `total_cost` is the enclosing variable,
which is never reassigned (see the module comment), hence `0`. -/
def execute_workflow_graph (ctx : WfCtx) (nodes : List WfNode)
    (graph : List (String × List String)) (input_data : List (String × JVal))
    (nodeDur : ℚ) : Except String WfGraphResult :=
  let start_nodes := (nodes.filter (fun n => n.node_type = "start")).map (·.node_id)
  if start_nodes.isEmpty then
    .error ("No start node found in workflow")
  else
    match runChildren ctx nodes graph input_data nodeDur (nodes.length + 1)
        start_nodes ⟨[], [], []⟩ with
    | (_, some e) => .error e
    | (st, none) =>
      let end_nodes := (nodes.filter (fun n => n.node_type = "end")).map (·.node_id)
      let final_pairs := end_nodes.foldl
        (fun acc en =>
          match lookupJ st.outputs en with
          | some v => acc ++ [(en, v)]
          | none => acc) []
      let final_output : JVal :=
        if final_pairs.isEmpty && !st.outputs.isEmpty then
          ((st.outputs.getLast?).map (·.2)).getD .jnull
        else .jdict final_pairs
      .ok { success := true, output := final_output, error := none, steps := st.steps,
            total_cost := 0, nodes_executed := st.executed.length }

/-- The result dict of `WorkflowService.execute_workflow`; on the
exception path the `total_cost` and `nodes_executed` keys are absent. -/
structure WfResult where
  success : Bool
  output : Option JVal
  error : Option String
  duration : ℚ
  steps : List WfStep
  total_cost : Option ℚ
  nodes_executed : Option Nat

/-- `WorkflowService.execute_workflow` (lines 558-587): build the graph,
run it, stamp the duration; *any* exception is caught into a failure
record whose `steps` list is empty (the steps recorded inside
`_execute_workflow_graph` are local to it and are discarded). -/
def execute_workflow (nodes : List WfNode) (conns : List WfConn)
    (input_data : List (String × JVal)) (ctx : WfCtx) (nodeDur elapsed : ℚ) :
    WfResult :=
  match (build_execution_graph nodes conns).bind
      (fun g => execute_workflow_graph ctx nodes g input_data nodeDur) with
  | .ok r =>
    { success := r.success, output := some r.output, error := r.error,
      duration := pyRound elapsed 3, steps := r.steps,
      total_cost := some r.total_cost, nodes_executed := some r.nodes_executed }
  | .error e =>
    { success := false, output := none, error := some e,
      duration := pyRound elapsed 3, steps := [], total_cost := none,
      nodes_executed := none }

/-! ## Claim-side definitions and concrete fixtures -/

/-- The spec's multi-statement criterion: a semicolon followed (anywhere
later) by a non-whitespace character. -/
def hasStackedStatement : List Char → Bool
  | [] => false
  | c :: l => (c == ';' && l.any (fun d => !isPySpace d)) || hasStackedStatement l

/-- Number of `llm_call` steps in an agent run's step list. -/
def countLlmSteps (steps : List AStep) : Nat :=
  (steps.filter (fun s => s.stepType = "llm_call")).length

/-- Token total accumulated by the ReAct loop over calls `i … i+k`,
starting from `t` (one addition per iteration, as in the source). -/
def tokAcc (llm : Nat → LlmResult) : Nat → Nat → Nat → Nat
  | i, 0, t => t + (llm i).total_tokens
  | i, k + 1, t => tokAcc llm (i + 1) k (t + (llm i).total_tokens)

/-- Cost accumulated by the ReAct loop over calls `i … i+k`, starting from
`c` (`total_cost = round(total_cost + cost, 5)` per iteration). -/
def costAcc (llm : Nat → LlmResult) : Nat → Nat → ℚ → ℚ
  | i, 0, c => pyRound (c + (llm i).cost) 5
  | i, k + 1, c => costAcc llm (i + 1) k (pyRound (c + (llm i).cost) 5)

/-- C2 fixture: `start → agent → end` with the agent node bound to agent
id 1. -/
def c2Nodes : List WfNode :=
  [⟨"s", "start", []⟩, ⟨"a", "agent", [("agent_id", .jint 1)]⟩, ⟨"e", "end", []⟩]

def c2Conns : List WfConn := [⟨"s", "a"⟩, ⟨"a", "e"⟩]

def c2Input : List (String × JVal) := [("x", .jstr "hello")]

/-- C2 fixture: a stub agent that resolves, succeeds, and echoes its input
dict, at cost 0.1. -/
def c2Ctx : WfCtx :=
  { agentFound := fun _ => true,
    runAgent := fun _ inp => ⟨true, .jdict inp, none, 1/10⟩ }

/-- C3 fixture: `start → agent` where the agent node has no `agent_id`,
so the agent branch raises `ValueError("No agent specified for node a")`. -/
def c3Nodes : List WfNode := [⟨"s", "start", []⟩, ⟨"a", "agent", []⟩]

def c3Conns : List WfConn := [⟨"s", "a"⟩]

def c3Input : List (String × JVal) := [("q", .jstr "go")]

def c3Ctx : WfCtx :=
  { agentFound := fun _ => true,
    runAgent := fun _ inp => ⟨true, .jdict inp, none, 0⟩ }

/-- The adjacency map `_build_execution_graph` produces for the C3
fixture. -/
def c3Graph : List (String × List String) := [("s", ["a"]), ("a", [])]

def mockModel : ModelRec := ⟨"azure_openai", "gpt-4", 1/100000⟩

def trivialTsv : ToolSvc := fun _ _ => ⟨false, none, some ("unused"), 0⟩

/-- C4 fixture: the LLM oracle fails on its very first call. -/
def c4LlmFailNow : Nat → LlmResult :=
  fun _ => ⟨false, "", some ("boom"), 0, 0, 7, 0, 0⟩

def c4Tools : List ToolRec := [⟨"calculator", "evaluates arithmetic"⟩]

def c4Agent : AgentRec := ⟨c4Tools, some []⟩

/-- C4 witness fixture: call 0 succeeds with plain text (no markers),
call 1 fails. -/
def c4LlmSecondFails : Nat → LlmResult :=
  fun i =>
    if i == 0 then ⟨true, "Let me think about this.", none, 10, 5, 15, 3/1000, 0⟩
    else ⟨false, "", some ("rate limited"), 0, 0, 0, 0, 0⟩

def c7Agent : AgentRec := ⟨[], some []⟩

def c7Llm : Nat → LlmResult := fun _ => ⟨true, "hi there", none, 1, 1, 2, 0, 0⟩

def c10Agent : AgentRec := ⟨c4Tools, none⟩

/-! ## Theorems -/

/-- C1: the claim says a first-keyword DROP/TRUNCATE/DELETE/ALTER query is
refused when `allow_dangerous = false` and executed and committed when
`allow_dangerous = true`.  The active `execute_query` does neither
consistently: `DROP TABLE t` is refused *even with* `allow_dangerous =
true` (the `elif not is_valid` branch swallows the approval), and
`DELETE FROM t` is executed as a plain WRITE *without* approval (DELETE
is classified by `write_commands` before `dangerous_commands` is ever
consulted).  The first conjunct shows the one part that does hold. -/
theorem c1_dangerous_gate_eval :
    execute_query_decision ("DROP TABLE t") 1 50 false
      = .refuse ("Dangerous operation blocked: Dangerous command: DROP") ("DANGEROUS")
    ∧ execute_query_decision ("DROP TABLE t") 1 50 true
      = .refuse ("Dangerous command: DROP") ("DANGEROUS")
    ∧ execute_query_decision ("DELETE FROM t") 1 50 false = .runWrite :=
  ⟨rfl, rfl, rfl⟩

/-- C9: the two `execute_query` definitions in `SQLExecutorService`
diverge on concrete inputs: the first (risk-analysis based) refuses
`DELETE FROM t` without approval and executes `DROP TABLE t` with
approval, while the second (`validate_query` based, which shadows the
first under Python class-body semantics and is the one every caller
observes) does exactly the opposite on both. -/
theorem c9_shadowed_divergence :
    execute_query_v1_decision ("DELETE FROM t") 1 50 false
      ≠ execute_query_decision ("DELETE FROM t") 1 50 false
    ∧ execute_query_v1_decision ("DROP TABLE t") 1 50 true
      ≠ execute_query_decision ("DROP TABLE t") 1 50 true
    ∧ execute_query_v1_decision ("DELETE FROM t") 1 50 false
      = .refuse ("Dangerous query blocked. Admin approval required.") ""
    ∧ execute_query_decision ("DELETE FROM t") 1 50 false = .runWrite
    ∧ execute_query_v1_decision ("DROP TABLE t") 1 50 true = .runWrite
    ∧ execute_query_decision ("DROP TABLE t") 1 50 true
      = .refuse ("Dangerous command: DROP") ("DANGEROUS") := by
  refine ⟨by decide, by decide, rfl, rfl, rfl, rfl⟩

/-- C5 counterexample: `SELECT 1; SELECT 2` contains a semicolon followed
by further non-whitespace, yet the active `execute_query` does not refuse
it under either flag value — it proceeds to hand the (paginated) text to
the database.  Only the three semicolon injection patterns are gated. -/
theorem c5_multistatement_not_refused_cex :
    hasStackedStatement ("SELECT 1; SELECT 2").data = true
    ∧ execute_query_decision ("SELECT 1; SELECT 2") 1 50 false
        = .runRead (some ("SELECT 1; SELECT 2 LIMIT 50 OFFSET 0"))
    ∧ execute_query_decision ("SELECT 1; SELECT 2") 1 50 true
        = .runRead (some ("SELECT 1; SELECT 2 LIMIT 50 OFFSET 0")) :=
  ⟨rfl, rfl, rfl⟩

/-- C6 counterexample: for a SELECT that already carries a LIMIT clause,
the active `execute_query` appends a second `LIMIT … OFFSET …` instead of
replacing the existing one (the replacement behaviour the claim describes
lives in the *shadowed* first pipeline, shown by the last conjunct). -/
theorem c6_limit_stacked_cex :
    execute_query_decision ("SELECT * FROM t LIMIT 5") 1 50 false
      = .runRead (some ("SELECT * FROM t LIMIT 5 LIMIT 50 OFFSET 0"))
    ∧ hasSubstr ("SELECT * FROM t LIMIT 5 LIMIT 50 OFFSET 0")
        ("LIMIT 5 LIMIT 50") = true
    ∧ paginate_v1 ("SELECT * FROM t LIMIT 5") 1 50 = "SELECT * FROM t LIMIT 50 OFFSET 0" :=
  ⟨rfl, rfl, rfl⟩

/-- C2: the claim says a `start → agentNode → end` workflow whose agent
succeeds and echoes its input returns success with exactly 3 steps and an
`end`-keyed output.  On the code, the agent-success branch of
`execute_node` trips the `total_cost` scoping slip (assignment without
`nonlocal`, so the read raises `UnboundLocalError`), the exception
propagates out of `_execute_workflow_graph`, and `execute_workflow`'s
`except` returns a failure with an *empty* step list instead. -/
theorem c2_workflow_unbound_local_eval :
    (execute_workflow c2Nodes c2Conns c2Input c2Ctx 0 0).success = false
    ∧ (execute_workflow c2Nodes c2Conns c2Input c2Ctx 0 0).error
        = some totalCostUnboundMsg
    ∧ (execute_workflow c2Nodes c2Conns c2Input c2Ctx 0 0).steps = []
    ∧ (execute_workflow c2Nodes c2Conns c2Input c2Ctx 0 0).output = none
    ∧ (execute_workflow c2Nodes c2Conns c2Input c2Ctx 0 0).total_cost = none :=
  ⟨rfl, rfl, rfl, rfl, rfl⟩

/-- C3 counterexample: in the `start → agent(no agent_id)` fixture the
traversal does record steps — `["s", "a", "s"]`: the start node's success
step, the agent node's failure step, and the start node's own failure
step appended by its `except` while re-raising — but the result
`execute_workflow` hands back has `steps = []` and no cost field, so the
steps recorded before the failing node are *not* returned. -/
theorem c3_steps_discarded_cex :
    build_execution_graph c3Nodes c3Conns = .ok c3Graph
    ∧ ((execute_node c3Ctx c3Nodes c3Graph c3Input 0 3 ("s")
          ⟨[], [], []⟩).1.steps.map WfStep.node_id) = ["s", "a", "s"]
    ∧ (execute_workflow c3Nodes c3Conns c3Input c3Ctx 0 0).error
        = some ("No agent specified for node a")
    ∧ (execute_workflow c3Nodes c3Conns c3Input c3Ctx 0 0).steps = []
    ∧ (execute_workflow c3Nodes c3Conns c3Input c3Ctx 0 0).total_cost = none :=
  ⟨rfl, rfl, rfl, rfl, rfl⟩

/-- C3 amended: when any node of a workflow run raises, `execute_workflow`
returns a failure result carrying the exception's message, an **empty**
steps list, and no `total_cost`/`nodes_executed` fields — the steps and
partial cost recorded inside `_execute_workflow_graph` are discarded, not
returned. -/
theorem c3_amended_failure_shape (nodes : List WfNode) (conns : List WfConn)
    (input_data : List (String × JVal)) (ctx : WfCtx) (nodeDur elapsed : ℚ)
    (e : String)
    (h : (build_execution_graph nodes conns).bind
        (fun g => execute_workflow_graph ctx nodes g input_data nodeDur)
        = .error e) :
    execute_workflow nodes conns input_data ctx nodeDur elapsed
      = { success := false, output := none, error := some e,
          duration := pyRound elapsed 3, steps := [], total_cost := none,
          nodes_executed := none } := by
  unfold execute_workflow
  rw [h]

/-- C3 witness: the amended statement applied to the concrete failing
workflow of the counterexample fixture. -/
theorem c3_amended_failure_shape_witness :
    ((build_execution_graph c3Nodes c3Conns).bind
        (fun g => execute_workflow_graph c3Ctx c3Nodes g c3Input 0)
        = .error ("No agent specified for node a"))
    ∧ execute_workflow c3Nodes c3Conns c3Input c3Ctx 0 0
        = { success := false, output := none,
            error := some ("No agent specified for node a"),
            duration := pyRound 0 3, steps := [], total_cost := none,
            nodes_executed := none } :=
  ⟨rfl, c3_amended_failure_shape c3Nodes c3Conns c3Input c3Ctx 0 0 _ rfl⟩

/-- C4 counterexample: the agent has a tool, the very first LLM call fails
with error `boom`; the loop does stop at once (a single `llm_call` step,
and that call's 7 tokens are the accumulated total), but the run's
returned error is the iteration-limit message, not `boom`: the `break` on
a failed call falls through to the same post-loop return as iteration
exhaustion. -/
theorem c4_error_not_call_error_cex :
    (c4LlmFailNow 0).error = some ("boom")
    ∧ (execute_agent c4Agent (some mockModel) (some ("Say hi")) [] c4LlmFailNow
        trivialTsv 0).error = some ("Agent exceeded maximum iterations (5)")
    ∧ (execute_agent c4Agent (some mockModel) (some ("Say hi")) [] c4LlmFailNow
        trivialTsv 0).error ≠ some ("boom")
    ∧ (execute_agent c4Agent (some mockModel) (some ("Say hi")) [] c4LlmFailNow
        trivialTsv 0).steps = [.llm (some 1) false 0 7 0]
    ∧ (execute_agent c4Agent (some mockModel) (some ("Say hi")) [] c4LlmFailNow
        trivialTsv 0).total_tokens = 7 :=
  ⟨rfl, rfl, by decide, rfl, rfl⟩

/-- Loop invariant behind the C4 amendment: if calls `i … i+k-1` succeed
without a final-answer marker and call `i+k` fails, with `k` iterations
still available, the loop records exactly `k+1` further `llm_call` steps,
accumulates the tokens and cost of those calls (including the failed
one), and returns the post-loop iteration-limit failure. -/
theorem reactGo_break_props (maxIter : Int) (tools : List ToolRec)
    (llm : Nat → LlmResult) (tsv : ToolSvc) (elapsed : ℚ) :
    ∀ (k rem i : Nat) (conv : List String) (steps : List AStep) (ttok : Nat) (tcost : ℚ),
      k < rem →
      (∀ j, j < k → (llm (i + j)).success = true
          ∧ hasSubstr (llm (i + j)).response ("FINAL_ANSWER:") = false) →
      (llm (i + k)).success = false →
      (reactGo maxIter tools llm tsv elapsed rem i conv steps ttok tcost).success = false
      ∧ (reactGo maxIter tools llm tsv elapsed rem i conv steps ttok tcost).error
          = some (exceededMsg maxIter)
      ∧ (reactGo maxIter tools llm tsv elapsed rem i conv steps ttok tcost).iterations
          = some maxIter
      ∧ countLlmSteps (reactGo maxIter tools llm tsv elapsed rem i conv steps ttok tcost).steps
          = countLlmSteps steps + (k + 1)
      ∧ (reactGo maxIter tools llm tsv elapsed rem i conv steps ttok tcost).total_tokens
          = tokAcc llm i k ttok
      ∧ (reactGo maxIter tools llm tsv elapsed rem i conv steps ttok tcost).total_cost
          = costAcc llm i k tcost := by
  intro k
  induction k with
  | zero =>
    intro rem i conv steps ttok tcost hk hpre hfail
    match rem, hk with
    | rem' + 1, _ =>
      simp only [Nat.add_zero] at hfail
      simp only [reactGo, hfail]
      refine ⟨rfl, rfl, rfl, ?_, rfl, rfl⟩
      simp [countLlmSteps, exceededResult, List.filter_append, AStep.stepType]
  | succ k ih =>
    intro rem i conv steps ttok tcost hk hpre hfail
    match rem, hk with
    | rem' + 1, _ =>
      obtain ⟨hs0, hf0⟩ := hpre 0 (by omega)
      simp only [Nat.add_zero] at hs0 hf0
      have hk' : k < rem' := by omega
      have hpre' : ∀ j, j < k → (llm (i + 1 + j)).success = true
          ∧ hasSubstr (llm (i + 1 + j)).response ("FINAL_ANSWER:") = false := by
        intro j hj
        have h := hpre (j + 1) (by omega)
        rwa [show i + (j + 1) = i + 1 + j by omega] at h
      have hfail' : (llm (i + 1 + k)).success = false := by
        rwa [show i + (k + 1) = i + 1 + k by omega] at hfail
      have key : ∀ (c₂ : List String) (s₂ : List AStep) (t₂ : Nat) (q₂ : ℚ),
          (reactGo maxIter tools llm tsv elapsed rem' (i + 1) c₂ s₂ t₂ q₂).success = false
          ∧ (reactGo maxIter tools llm tsv elapsed rem' (i + 1) c₂ s₂ t₂ q₂).error
              = some (exceededMsg maxIter)
          ∧ (reactGo maxIter tools llm tsv elapsed rem' (i + 1) c₂ s₂ t₂ q₂).iterations
              = some maxIter
          ∧ countLlmSteps (reactGo maxIter tools llm tsv elapsed rem' (i + 1) c₂ s₂ t₂ q₂).steps
              = countLlmSteps s₂ + (k + 1)
          ∧ (reactGo maxIter tools llm tsv elapsed rem' (i + 1) c₂ s₂ t₂ q₂).total_tokens
              = tokAcc llm (i + 1) k t₂
          ∧ (reactGo maxIter tools llm tsv elapsed rem' (i + 1) c₂ s₂ t₂ q₂).total_cost
              = costAcc llm (i + 1) k q₂ :=
        fun a b c d => ih rem' (i + 1) a b c d hk' hpre' hfail'
      have hnsucc : ¬((llm i).success = false) := by simp [hs0]
      have hnfin : ¬(hasSubstr (llm i).response ("FINAL_ANSWER:") = true) := by simp [hf0]
      simp only [reactGo]
      rw [if_neg hnsucc, if_neg hnfin]
      by_cases htc : hasSubstr (llm i).response ("TOOL_CALL:") = true
      · rw [if_pos htc]
        refine ⟨(key _ _ _ _).1, (key _ _ _ _).2.1, (key _ _ _ _).2.2.1, ?_, ?_, ?_⟩
        · rw [(key _ _ _ _).2.2.2.1]
          simp [countLlmSteps, List.filter_append, AStep.stepType]
          omega
        · rw [(key _ _ _ _).2.2.2.2.1]
          rfl
        · rw [(key _ _ _ _).2.2.2.2.2]
          rfl
      · rw [if_neg htc]
        refine ⟨(key _ _ _ _).1, (key _ _ _ _).2.1, (key _ _ _ _).2.2.1, ?_, ?_, ?_⟩
        · rw [(key _ _ _ _).2.2.2.1]
          simp [countLlmSteps, List.filter_append, AStep.stepType]
          omega
        · rw [(key _ _ _ _).2.2.2.2.1]
          rfl
        · rw [(key _ _ _ _).2.2.2.2.2]
          rfl

/-- C4 amended: when an LLM call inside the ReAct loop fails at iteration
`k` (all earlier iterations succeeded without a final answer), the loop
does terminate immediately — exactly `k+1` `llm_call` steps are recorded
— and the tokens and cost accumulated through the failed call are
returned; but the run reports `success = false` with the iteration-limit
error `Agent exceeded maximum iterations ({max_iterations})` and
`iterations = max_iterations`, not the failed call's own error message. -/
theorem c4_break_reports_iteration_limit (tools : List ToolRec)
    (ps : List (String × Int)) (prompt : String) (llm : Nat → LlmResult)
    (tsv : ToolSvc) (elapsed : ℚ) (k : Nat)
    (hk : (k : Int) < maxIterationsOf ps)
    (hpre : ∀ j, j < k → (llm j).success = true
        ∧ hasSubstr (llm j).response ("FINAL_ANSWER:") = false)
    (hfail : (llm k).success = false) :
    (execute_agent_with_tools tools ps prompt llm tsv elapsed).success = false
    ∧ (execute_agent_with_tools tools ps prompt llm tsv elapsed).error
        = some (exceededMsg (maxIterationsOf ps))
    ∧ (execute_agent_with_tools tools ps prompt llm tsv elapsed).iterations
        = some (maxIterationsOf ps)
    ∧ countLlmSteps (execute_agent_with_tools tools ps prompt llm tsv elapsed).steps = k + 1
    ∧ (execute_agent_with_tools tools ps prompt llm tsv elapsed).total_tokens
        = tokAcc llm 0 k 0
    ∧ (execute_agent_with_tools tools ps prompt llm tsv elapsed).total_cost
        = costAcc llm 0 k 0 := by
  have hk' : k < (maxIterationsOf ps).toNat := by omega
  have hpre0 : ∀ j, j < k → (llm (0 + j)).success = true
      ∧ hasSubstr (llm (0 + j)).response ("FINAL_ANSWER:") = false := by
    intro j hj; simpa using hpre j hj
  have hfail0 : (llm (0 + k)).success = false := by simpa using hfail
  have H := reactGo_break_props (maxIterationsOf ps) tools llm tsv elapsed k
    (maxIterationsOf ps).toNat 0 ["User: " ++ enhancedPrompt prompt tools] [] 0 0
    hk' hpre0 hfail0
  unfold execute_agent_with_tools
  refine ⟨H.1, H.2.1, H.2.2.1, ?_, H.2.2.2.2.1, H.2.2.2.2.2⟩
  rw [H.2.2.2.1]
  simp [countLlmSteps]

/-- C4 witness: `max_iterations = 3`, call 0 succeeds with marker-free
text, call 1 fails — the amended statement applied there gives 2 recorded
`llm_call` steps and the iteration-limit error. -/
theorem c4_break_reports_iteration_limit_witness :
    ((1 : Int) < maxIterationsOf [("max_iterations", 3)])
    ∧ (∀ j, j < 1 → (c4LlmSecondFails j).success = true
        ∧ hasSubstr (c4LlmSecondFails j).response ("FINAL_ANSWER:") = false)
    ∧ (c4LlmSecondFails 1).success = false
    ∧ countLlmSteps (execute_agent_with_tools c4Tools [("max_iterations", 3)] ("p")
        c4LlmSecondFails trivialTsv 0).steps = 2
    ∧ (execute_agent_with_tools c4Tools [("max_iterations", 3)] ("p")
        c4LlmSecondFails trivialTsv 0).error = some (exceededMsg 3) :=
  ⟨by decide, by decide, rfl,
    (c4_break_reports_iteration_limit c4Tools [("max_iterations", 3)] ("p")
      c4LlmSecondFails trivialTsv 0 1 (by decide) (by decide) rfl).2.2.2.1,
    (c4_break_reports_iteration_limit c4Tools [("max_iterations", 3)] ("p")
      c4LlmSecondFails trivialTsv 0 1 (by decide) (by decide) rfl).2.1⟩

/-- C5 amended: the refusals the active `execute_query` actually issues
for semicolon-bearing text are exactly the `injection_patterns` hits
(`;\s*DROP`, `;\s*DELETE FROM`, `;\s*UPDATE … SET`, plus the non-semicolon
patterns): whenever one of them matches the upper-cased stripped query,
the query is refused with that pattern's text, independently of
`allow_dangerous`, `page` and `page_size`.  Multi-statement text that
matches none of the patterns (see the counterexample) is not refused but
handed to the database. -/
theorem c5_injection_patterns_refused (q : String) (page psz : Int)
    (allowD : Bool) (pat : String)
    (h : injectionSearch (pyUpper (pyStrip q)) = some pat) :
    execute_query_decision q page psz allowD
      = .refuse ("Potentially dangerous pattern detected: " ++ pat) "" := by
  have hne : ¬(q = "" ∨ pyStrip q = "") := by
    rintro (rfl | hs)
    · rw [show injectionSearch (pyUpper (pyStrip "")) = none from rfl] at h
      exact Option.noConfusion h
    · rw [hs, show injectionSearch (pyUpper "") = none from rfl] at h
      exact Option.noConfusion h
  have hv : validate_query q
      = (false, "", "Potentially dangerous pattern detected: " ++ pat) := by
    simp only [validate_query, if_neg hne, h]
  simp only [execute_query_decision, hv]
  simp

/-- C5 witness: the spec's own example `SELECT * FROM t; DROP TABLE t;`
matches the first injection pattern and is refused even with
`allow_dangerous = true`. -/
theorem c5_injection_patterns_refused_witness :
    injectionSearch (pyUpper (pyStrip ("SELECT * FROM t; DROP TABLE t;")))
      = some (";\\s*DROP\\s+")
    ∧ execute_query_decision ("SELECT * FROM t; DROP TABLE t;") 1 50 true
        = .refuse ("Potentially dangerous pattern detected: ;\\s*DROP\\s+") "" :=
  ⟨rfl, c5_injection_patterns_refused ("SELECT * FROM t; DROP TABLE t;") 1 50 true
    (";\\s*DROP\\s+") rfl⟩

/-- C6 amended: every SELECT accepted by `validate_query` is re-issued
with `LIMIT page_size OFFSET (page-1)*page_size` **appended** to the
original text (1-based page numbering); a pre-existing LIMIT clause is
left in place rather than replaced, so such queries end up with two LIMIT
clauses (see the counterexample). -/
theorem c6_pagination_appended (q : String) (page psz : Int) (allowD : Bool)
    (hv : validate_query q = (true, "READ", ""))
    (hsel : pyStartsWith (pyStrip (pyUpper q)) ("SELECT") = true) :
    execute_query_decision q page psz allowD
      = .runRead (some (q ++ " LIMIT " ++ pyIntStr psz ++ " OFFSET " ++
          pyIntStr ((page - 1) * psz))) := by
  simp only [execute_query_decision, hv, hsel]
  simp

/-- C6 witness: page 2 of size 10 for `SELECT * FROM t` issues
`… LIMIT 10 OFFSET 10`. -/
theorem c6_pagination_appended_witness :
    validate_query ("SELECT * FROM t") = (true, "READ", "")
    ∧ pyStartsWith (pyStrip (pyUpper ("SELECT * FROM t"))) ("SELECT") = true
    ∧ execute_query_decision ("SELECT * FROM t") 2 10 false
        = .runRead (some ("SELECT * FROM t LIMIT 10 OFFSET 10")) :=
  ⟨rfl, rfl, c6_pagination_appended ("SELECT * FROM t") 2 10 false rfl rfl⟩

/-- C7: an agent with zero tools whose model and prompt resolve and whose
template fills from the input data records exactly one step, of type
`llm_call`, and on LLM success its output is the response text verbatim. -/
theorem c7_simple_agent_single_llm_step (agent : AgentRec) (m : ModelRec)
    (tmpl : String) (input : List (String × JVal)) (s : String)
    (llm : Nat → LlmResult) (tsv : ToolSvc) (elapsed : ℚ)
    (htools : agent.tools = [])
    (hfill : fill_prompt_template tmpl input = .ok s) :
    (execute_agent agent (some m) (some tmpl) input llm tsv elapsed).steps.map
        AStep.stepType = ["llm_call"]
    ∧ ((llm 0).success = true →
        (execute_agent agent (some m) (some tmpl) input llm tsv elapsed).output
          = some ((llm 0).response)) := by
  simp only [execute_agent, hfill, htools, List.isEmpty_nil, if_true]
  constructor
  · simp [execute_simple_agent, AStep.stepType]
  · intro hs
    simp [execute_simple_agent, hs]

/-- C7 witness: a tool-less agent with template `Hello` and a successful
LLM response `hi there`. -/
theorem c7_simple_agent_single_llm_step_witness :
    c7Agent.tools = []
    ∧ fill_prompt_template ("Hello") [] = .ok ("Hello")
    ∧ (c7Llm 0).success = true
    ∧ (execute_agent c7Agent (some mockModel) (some ("Hello")) [] c7Llm trivialTsv
        0).steps.map AStep.stepType = ["llm_call"]
    ∧ (execute_agent c7Agent (some mockModel) (some ("Hello")) [] c7Llm trivialTsv
        0).output = some ("hi there") :=
  ⟨rfl, rfl, rfl,
    (c7_simple_agent_single_llm_step c7Agent mockModel ("Hello") [] ("Hello")
      c7Llm trivialTsv 0 rfl rfl).1,
    (c7_simple_agent_single_llm_step c7Agent mockModel ("Hello") [] ("Hello")
      c7Llm trivialTsv 0 rfl rfl).2 rfl⟩

/-- C8 counterexample: a provider exception whose `str(e)` is empty (e.g.
`raise Exception()`) yields a failure result whose error string is
`""` — not the non-empty human-readable string the claim requires. -/
theorem c8_empty_error_cex :
    (call_llm mockModel ("p") true (.exn ("")) 0).success = false
    ∧ (call_llm mockModel ("p") true (.exn ("")) 0).error = some ("")
    ∧ (call_llm mockModel ("p") true (.exn ("")) 0).total_tokens = 0 :=
  ⟨rfl, rfl, rfl⟩

/-- C8 amended: when the provider call raises, `call_llm` returns (never
propagates) a failure record with zeroed token and cost fields, a
measured non-negative duration, and an error string equal to the
exception's text — which is non-empty exactly when the exception carries
a non-empty message. -/
theorem c8_provider_failure_shape (model : ModelRec) (prompt : String)
    (m : String) (elapsed : ℚ)
    (hp : model.provider = "azure_openai") (he : 0 ≤ elapsed) :
    call_llm model prompt true (.exn m) elapsed
      = { success := false, response := "", error := some m, prompt_tokens := 0,
          completion_tokens := 0, total_tokens := 0, cost := 0,
          duration := pyRound elapsed 3 }
    ∧ 0 ≤ pyRound elapsed 3 := by
  constructor
  · simp only [call_llm, hp, if_pos rfl, call_azure_openai]
    rfl
  · unfold pyRound
    have h2 : (0 : ℤ) ≤ round (elapsed * (10 : ℚ) ^ 3) := by
      rw [round_eq]
      have hx : (0 : ℚ) ≤ elapsed * (10 : ℚ) ^ 3 + 1 / 2 := by positivity
      exact_mod_cast Int.floor_nonneg.mpr hx
    positivity

/-- C8 witness: a provider raise with message `Connection refused` after
half a second. -/
theorem c8_provider_failure_shape_witness :
    mockModel.provider = "azure_openai"
    ∧ (0 : ℚ) ≤ 1 / 2
    ∧ call_llm mockModel ("p") true (.exn ("Connection refused")) (1 / 2)
        = { success := false, response := "", error := some ("Connection refused"),
            prompt_tokens := 0, completion_tokens := 0, total_tokens := 0,
            cost := 0, duration := pyRound (1 / 2) 3 }
    ∧ 0 ≤ pyRound (1 / 2) 3 :=
  ⟨rfl, by norm_num,
    (c8_provider_failure_shape mockModel ("p") ("Connection refused") (1 / 2) rfl
      (by norm_num)).1,
    (c8_provider_failure_shape mockModel ("p") ("Connection refused") (1 / 2) rfl
      (by norm_num)).2⟩

/-- C10: an agent with at least one tool but `parameters = None` fails
before any LLM call: `agent.parameters.get('max_iterations', 5)` raises
`AttributeError`, which `execute_agent`'s `except` converts into a
failure result with that message and an empty steps list — the result is
the same for every LLM oracle, so no call is performed, and the ReAct
loop with its default of 5 iterations never starts. -/
theorem c10_none_parameters_fails_fast (t0 : ToolRec) (ts : List ToolRec)
    (m : ModelRec) (tmpl : String) (input : List (String × JVal)) (s : String)
    (llm : Nat → LlmResult) (tsv : ToolSvc) (elapsed : ℚ)
    (hfill : fill_prompt_template tmpl input = .ok s) :
    execute_agent ⟨t0 :: ts, none⟩ (some m) (some tmpl) input llm tsv elapsed
      = errAgentResult ("'NoneType' object has no attribute 'get'") elapsed := by
  simp only [execute_agent, hfill]
  rfl

/-- C10 witness: the tool-bearing, parameter-less agent fixture with a
healthy LLM oracle still returns the `AttributeError` failure with no
steps. -/
theorem c10_none_parameters_fails_fast_witness :
    fill_prompt_template ("Hi") [] = .ok ("Hi")
    ∧ execute_agent c10Agent (some mockModel) (some ("Hi")) [] c7Llm trivialTsv 0
        = errAgentResult ("'NoneType' object has no attribute 'get'") 0
    ∧ (errAgentResult ("'NoneType' object has no attribute 'get'") 0).steps = [] :=
  ⟨rfl,
    c10_none_parameters_fails_fast ⟨"calculator", "evaluates arithmetic"⟩ []
      mockModel ("Hi") [] ("Hi") c7Llm trivialTsv 0 rfl,
    rfl⟩
